import Mathlib

/-!
Environmental signal aggregator — verification development.

A shallow embedding of the environmental signal aggregator
(`src/notification/scheduler.js`) in Lean 4, together with theorems about
its behaviour.

Modelling conventions:

* JavaScript numbers coming out of the JSON feeds are modelled as `ℚ`;
  `null`/`undefined`/`NaN` inputs are modelled by `Option` (`none`).
  The concrete values exercised here are exactly representable, so the
  rational model agrees with IEEE doubles on them.
* Network fetches are I/O: the pure per-response processing is embedded as
  functions over the parsed response (a record for the JSON endpoints, a
  list of already-extracted table rows for the HTML endpoints), and each
  whole source call is an `Except String` outcome when the aggregator is
  concerned.
* ECMAScript builtins used by the module (`toFixed`, `Number(string)`,
  `String.prototype.toLowerCase`, `new Date(string)`, `Date.now`) are given
  explicit executable models, documented at their definitions.
-/

namespace Scheduler

/-- Holds when, in `listStarts p s`, `p` is a prefix of `s`; the building block
for the JS `String.prototype.includes` model below. -/
def listStarts : List Char → List Char → Bool
  | [], _ => true
  | _ :: _, [] => false
  | p :: ps, c :: cs => p == c && listStarts ps cs

/-- Case-insensitive prefix test: the pattern is supplied lower-case and each
subject character is lowered before comparison.  Models how a `/.../i` regex
matches a fixed pattern. -/
def listStartsCI : List Char → List Char → Bool
  | [], _ => true
  | _ :: _, [] => false
  | p :: ps, c :: cs => p == Char.toLower c && listStartsCI ps cs

/-- Fuel-driven worker for `replaceCI`; fuel bounds the number of characters
consumed, so `s.length` fuel always suffices. -/
def replaceCIAux (pat rep : List Char) : Nat → List Char → List Char
  | 0, s => s
  | _ + 1, [] => []
  | fuel + 1, c :: rest =>
    if pat ≠ [] && listStartsCI pat (c :: rest) then
      rep ++ replaceCIAux pat rep fuel (rest.drop (pat.length - 1))
    else
      c :: replaceCIAux pat rep fuel rest

/-- Global case-insensitive replacement of the fixed pattern `pat` by `rep`,
scanning left to right without rescanning replacements: the model of the
`value.replace(/pat/gi, rep)` calls in `decodeHtmlEntities`
(scheduler.js:122-134). -/
def replaceCI (pat rep s : List Char) : List Char :=
  replaceCIAux pat rep s.length s

/-- The entity table of `decodeHtmlEntities` (scheduler.js:122-134), in source
order; the `&#39;` entity decodes to the apostrophe, written via its code. -/
def htmlEntities : List (List Char × List Char) :=
  [("&nbsp;".data, " ".data),
   ("&amp;".data, "&".data),
   ("&quot;".data, "\"".data),
   ("&#39;".data, [Char.ofNat 39]),
   ("&lt;".data, "<".data),
   ("&gt;".data, ">".data),
   ("&#8211;".data, "-".data),
   ("&#8212;".data, "-".data),
   ("&#176;".data, "°".data),
   ("&#37;".data, "%".data)]

/-- Embeds `decodeHtmlEntities` (scheduler.js:122-134): the ten case-insensitive
global replacements, applied in source order. -/
def decodeHtmlEntities (value : String) : String :=
  ⟨htmlEntities.foldl (fun acc pr => replaceCI pr.1 pr.2 acc) value.data⟩

/-- Drop everything up to and past the first case-insensitive occurrence of
`pat`; `none` when `pat` does not occur.  Used for the lazy `[\s\S]*?` part of
the script/style-block regexes. -/
def dropThroughCI (pat : List Char) : List Char → Option (List Char)
  | [] => if pat.isEmpty then some [] else none
  | c :: rest =>
    if listStartsCI pat (c :: rest) then some (rest.drop (pat.length - 1))
    else dropThroughCI pat rest

/-- Fuel-driven worker for `removeBlocks`. -/
def removeBlocksAux (openTag closeTag : List Char) : Nat → List Char → List Char
  | 0, s => s
  | _ + 1, [] => []
  | fuel + 1, c :: rest =>
    if listStartsCI openTag (c :: rest) then
      let afterOpen := (c :: rest).drop openTag.length
      match afterOpen.dropWhile (fun ch => ch ≠ '>') with
      | '>' :: r2 =>
        match dropThroughCI closeTag r2 with
        | some r3 => ' ' :: removeBlocksAux openTag closeTag fuel r3
        | none => c :: removeBlocksAux openTag closeTag fuel rest
      | _ => c :: removeBlocksAux openTag closeTag fuel rest
    else c :: removeBlocksAux openTag closeTag fuel rest

/-- Model of `input.replace(/<tag[^>]*>[\s\S]*?<\/tag>/gi, " ")`
(scheduler.js:138-139): a case-insensitive open tag, attributes up to the
first `>`, then lazily everything up to the first matching close tag, all
replaced by one space; an unterminated block is left alone. -/
def removeBlocks (openTag closeTag s : List Char) : List Char :=
  removeBlocksAux openTag closeTag s.length s

/-- Fuel-driven worker for `stripTags`. -/
def stripTagsAux : Nat → List Char → List Char
  | 0, s => s
  | _ + 1, [] => []
  | fuel + 1, '<' :: rest =>
    match rest with
    | '>' :: _ => '<' :: stripTagsAux fuel rest
    | _ =>
      match rest.dropWhile (fun ch => ch ≠ '>') with
      | '>' :: r2 => ' ' :: stripTagsAux fuel r2
      | _ => '<' :: stripTagsAux fuel rest
  | fuel + 1, c :: rest => c :: stripTagsAux fuel rest

/-- Model of `.replace(/<[^>]+>/g, " ")` (scheduler.js:140): every `<`,
at least one non-`>` character, and the following `>` collapse to a space. -/
def stripTags (s : List Char) : List Char :=
  stripTagsAux s.length s

/-- Worker for `splitWs`: accumulates the current chunk in reverse. -/
def splitWsAux : List Char → List Char → List (List Char)
  | cur, [] => [cur.reverse]
  | cur, c :: rest =>
    if c.isWhitespace then cur.reverse :: splitWsAux [] rest
    else splitWsAux (c :: cur) rest

/-- The maximal runs of non-whitespace characters of `l`, in order: the model
of `split(/\s+/)` followed by `filter(Boolean)`. -/
def splitWs (l : List Char) : List (List Char) :=
  (splitWsAux [] l).filter (fun w => w ≠ [])

/-- Join chunks with a single space: the model of `join(" ")`. -/
def joinWords : List (List Char) → List Char
  | [] => []
  | [w] => w
  | w :: w2 :: ws => w ++ ' ' :: joinWords (w2 :: ws)

/-- Models `.replace(/\s+/g, " ").trim()`: interior whitespace runs collapse to one
space and outer whitespace disappears. -/
def collapseWsList (l : List Char) : List Char :=
  joinWords (splitWs l)

/-- String-level wrapper of `collapseWsList`, the normalization applied to
alert notice cells (scheduler.js:303). -/
def collapseWs (s : String) : String :=
  ⟨collapseWsList s.data⟩

/-- Embeds `stripHtml` (scheduler.js:136-143): decode entities, drop script and
style blocks, strip remaining tags, collapse whitespace and trim. -/
def stripHtml (input : String) : String :=
  let decoded := (decodeHtmlEntities input).data
  let noScript := removeBlocks "<script".data "</script>".data decoded
  let noStyle := removeBlocks "<style".data "</style>".data noScript
  ⟨collapseWsList (stripTags noStyle)⟩

/-- Capitalize the first character of a word:
`word.charAt(0).toUpperCase() + word.slice(1)` (scheduler.js:150).
`Char.toUpper` agrees with the JS `toUpperCase` on the basic latin range. -/
def capWord : List Char → List Char
  | [] => []
  | c :: rest => Char.toUpper c :: rest

/-- Embeds `toTitleCase` (scheduler.js:145-152): lower-case, split on whitespace,
drop empty chunks, capitalize each word, join with single spaces.
`Char.toLower` agrees with the JS `toLowerCase` on the basic latin range. -/
def toTitleCase (value : String) : String :=
  ⟨joinWords ((splitWs (value.data.map Char.toLower)).map capWord)⟩

/-- The JS `String.prototype.trim()`: strip leading and trailing whitespace. -/
def jsTrim (s : String) : String :=
  ⟨((s.data.dropWhile Char.isWhitespace).reverse.dropWhile Char.isWhitespace).reverse⟩

/-- Holds when, in `listHasSub pat s`, `pat` occurs contiguously in `s`. -/
def listHasSub (pat : List Char) : List Char → Bool
  | [] => pat.isEmpty
  | c :: rest => listStarts pat (c :: rest) || listHasSub pat rest

/-- The JS `s.includes(pat)` for the fixed non-empty patterns this module
searches for. -/
def containsSub (s pat : String) : Bool :=
  listHasSub pat.data s.data

/-- The JS `s.toLowerCase()`; `Char.toLower` agrees with it on the basic
latin range, which covers every pattern this module compares against. -/
def jsToLower (s : String) : String :=
  ⟨s.data.map Char.toLower⟩

/-- The numerator `⌊(num / den) * 10 ^ digits + 1 / 2⌋` of the `toFixed`
result for the non-negative rational `num / den`, computed by natural
division so that it evaluates inside the kernel. -/
def jsToFixedCore (digits num den : Nat) : Nat :=
  (2 * num * 10 ^ digits + den) / (2 * den)

/-- Models `value.toFixed(digits)` reread as a number, on the rational model of JS
numbers: per ECMA-262 the sign is processed separately and the integer
closest to `|value| * 10 ^ digits` is chosen, ties picking the larger. -/
def jsToFixed (digits : Nat) (q : ℚ) : ℚ :=
  if q.num < 0 then mkRat (-(jsToFixedCore digits q.num.natAbs q.den : Int)) (10 ^ digits)
  else mkRat (jsToFixedCore digits q.num.natAbs q.den : Int) (10 ^ digits)

/-- Embeds `formatNumber` (scheduler.js:154-164).  The `null`/`undefined`/`NaN` and
non-finite guards all map to `null`, modelled by the `none` input; a finite
number is rounded via `toFixed(digits)` and reread. -/
def formatNumber (value : Option ℚ) (digits : Nat) : Option ℚ :=
  value.map (jsToFixed digits)

/-- Digits-to-value helper for the `Number(string)` model. -/
def digitsToNat (l : List Char) : Nat :=
  l.foldl (fun a c => 10 * a + (c.toNat - 48)) 0

/-- Exponent-digit tail of the `Number(string)` model; the scalings
`mant * 10 ^ e` and `mant / 10 ^ e` are computed on numerator and
denominator so that they evaluate inside the kernel. -/
def parseExpDigits (mant : ℚ) (neg : Bool) (l : List Char) : Option ℚ :=
  if l ≠ [] ∧ l.all Char.isDigit then
    let e := digitsToNat l
    some (if neg then mkRat mant.num (mant.den * 10 ^ e)
          else mkRat (mant.num * 10 ^ e) mant.den)
  else none

/-- Signed exponent of the `Number(string)` model. -/
def parseSignedExp (mant : ℚ) : List Char → Option ℚ
  | '+' :: rest => parseExpDigits mant false rest
  | '-' :: rest => parseExpDigits mant true rest
  | rest => parseExpDigits mant false rest

/-- Optional exponent suffix of the `Number(string)` model; anything else
trailing makes the whole literal invalid. -/
def parseExpPart (mant : ℚ) : List Char → Option ℚ
  | [] => some mant
  | 'e' :: rest => parseSignedExp mant rest
  | 'E' :: rest => parseSignedExp mant rest
  | _ => none

/-- Unsigned decimal literal (integer part, optional fraction, optional
exponent) of the `Number(string)` model; the mantissa
`ip + fp / 10 ^ |fp|` is assembled as one `mkRat` so that it evaluates
inside the kernel. -/
def parseUnsignedDec (l : List Char) : Option ℚ :=
  let ip := l.takeWhile Char.isDigit
  let r1 := l.dropWhile Char.isDigit
  match r1 with
  | '.' :: r2 =>
    let fp := r2.takeWhile Char.isDigit
    let r3 := r2.dropWhile Char.isDigit
    if ip.isEmpty && fp.isEmpty then none
    else parseExpPart
      (mkRat (digitsToNat ip * 10 ^ fp.length + digitsToNat fp : Nat) (10 ^ fp.length)) r3
  | _ => if ip.isEmpty then none else parseExpPart (digitsToNat ip : ℚ) r1

/-- Model of the ECMAScript `Number(string)` conversion restricted to decimal
literals, the only numeric forms the feeds carry: surrounding whitespace is
trimmed, the empty string is `0`, an optional sign precedes a decimal literal
with optional fraction and exponent, and every other string is `NaN`,
modelled as `none` (hex/`Infinity` forms, absent from the feeds, also fall
into `none`). -/
def jsNumber (s : String) : Option ℚ :=
  match (jsTrim s).data with
  | [] => some 0
  | '+' :: rest => parseUnsignedDec rest
  | '-' :: rest => (parseUnsignedDec rest).map (fun q => -q)
  | l => parseUnsignedDec l

/-- A local calendar instant as produced by the JS `Date` parser, to minute
precision (the precision of the feed timestamps). -/
structure JSDate where
  year : Int
  month : Nat
  day : Nat
  hour : Nat
  minute : Nat
deriving DecidableEq, Repr

/-- Gregorian leap-year test. -/
def isLeapYear (y : Int) : Bool :=
  (y % 4 == 0 && y % 100 != 0) || y % 400 == 0

/-- Days in a month of the proleptic Gregorian calendar. -/
def daysInMonth (y : Int) (m : Nat) : Nat :=
  if m == 2 then (if isLeapYear y then 29 else 28)
  else if m == 4 || m == 6 || m == 9 || m == 11 then 30 else 31

/-- Day count of a civil date from the epoch 1970-01-01 (the standard
era-based algorithm). -/
def daysFromCivil (y : Int) (m d : Nat) : Int :=
  let yAdj : Int := if m ≤ 2 then y - 1 else y
  let era : Int := Int.fdiv yAdj 400
  let yoe : Int := yAdj - era * 400
  let mp : Int := ((m : Int) + 9) % 12
  let doy : Int := (153 * mp + 2) / 5 + (d : Int) - 1
  let doe : Int := yoe * 365 + yoe / 4 - yoe / 100 + doy
  era * 146097 + doe - 719468

/-- Models `Date.prototype.getTime()`: milliseconds since the epoch,
with the constant local-offset shift dropped (it cancels in every comparison
the module performs). -/
def getTimeMs (t : JSDate) : Int :=
  (daysFromCivil t.year t.month t.day * 1440 + (t.hour : Int) * 60 + (t.minute : Int)) * 60000

/-- Worker for `splitOnChar`. -/
def splitOnCharAux (sep : Char) : List Char → List Char → List (List Char)
  | cur, [] => [cur.reverse]
  | cur, c :: rest =>
    if c == sep then cur.reverse :: splitOnCharAux sep [] rest
    else splitOnCharAux sep (c :: cur) rest

/-- Split a character list at every occurrence of `sep`. -/
def splitOnChar (sep : Char) (l : List Char) : List (List Char) :=
  splitOnCharAux sep [] l

/-- Non-empty all-digit token test. -/
def allDigits (l : List Char) : Bool :=
  !l.isEmpty && l.all Char.isDigit

/-- Hour/minute token of the `new Date(string)` model. -/
def parseTimePart : List (List Char) → Option (Nat × Nat)
  | [h, mi] =>
    if allDigits h && h.length ≤ 2 && allDigits mi && mi.length == 2 then
      let hv := digitsToNat h
      let mv := digitsToNat mi
      if hv ≤ 23 && mv ≤ 59 then some (hv, mv) else none
    else none
  | _ => none

/-- Date token of the `new Date(string)` model: a four-digit year, then month
and day groups separated by `-`, validated against the civil calendar. -/
def parseDateToken (d : List Char) (h mi : Nat) : Option JSDate :=
  match splitOnChar '-' d with
  | [y, m, dd] =>
    if allDigits y && y.length == 4 && allDigits m && m.length ≤ 2 && allDigits dd && dd.length ≤ 2 then
      let yv : Int := (digitsToNat y : Int)
      let mv := digitsToNat m
      let dv := digitsToNat dd
      if 1 ≤ mv && mv ≤ 12 && 1 ≤ dv && dv ≤ daysInMonth yv mv then
        some ⟨yv, mv, dv, h, mi⟩
      else none
    else none
  | _ => none

/-- Model of the ECMAScript/V8 `new Date(string)` parser restricted to the
normalized `"YYYY-MM-DD"` and `"YYYY-MM-DD HH:MM"` shapes that
`parseEarthquakeDate` produces; every other string yields an invalid date,
modelled as `none`. -/
def jsDateParse (s : String) : Option JSDate :=
  match splitWs s.data with
  | [d] => parseDateToken d 0 0
  | [d, t] =>
    match parseTimePart (splitOnChar ':' t) with
    | some (h, mi) => parseDateToken d h mi
    | none => none
  | _ => none

/-- The slash-to-dash normalization `.replace(/\//g, "-")`
(scheduler.js:318). -/
def dashifySlashes (l : List Char) : List Char :=
  l.map (fun c => if c == '/' then '-' else c)

/-- Fuel-driven worker for `reorderDMY`. -/
def reorderDMYAux : Nat → List Char → List Char
  | 0, s => s
  | _ + 1, [] => []
  | fuel + 1, d1 :: d2 :: '-' :: d3 :: d4 :: '-' :: y1 :: y2 :: y3 :: y4 :: r =>
    if d1.isDigit && d2.isDigit && d3.isDigit && d4.isDigit &&
        y1.isDigit && y2.isDigit && y3.isDigit && y4.isDigit then
      y1 :: y2 :: y3 :: y4 :: '-' :: d3 :: d4 :: '-' :: d1 :: d2 ::
        reorderDMYAux fuel r
    else
      d1 :: reorderDMYAux fuel (d2 :: '-' :: d3 :: d4 :: '-' :: y1 :: y2 :: y3 :: y4 :: r)
  | fuel + 1, c :: rest => c :: reorderDMYAux fuel rest

/-- The day-month-year reordering
`.replace(/(\d{2})-(\d{2})-(\d{4})/g, "$3-$2-$1")` (scheduler.js:319):
left-to-right, non-overlapping, replacements not rescanned. -/
def reorderDMY (l : List Char) : List Char :=
  reorderDMYAux l.length l

/-- Embeds `parseEarthquakeDate` (scheduler.js:312-326): strip both cells,
concatenate as `"date time"`, trim, turn slashes into dashes, reorder a
detected day-month-year pattern, and hand the result to the `Date` parser;
an invalid date is `null`, modelled as `none`. -/
def parseEarthquakeDate (dateStr timeStr : String) : Option JSDate :=
  let formattedDate := stripHtml dateStr
  let formattedTime := stripHtml timeStr
  let isoCandidate := jsTrim (formattedDate ++ " " ++ formattedTime)
  let normalised := reorderDMY (dashifySlashes isoCandidate.data)
  jsDateParse ⟨normalised⟩

/-- Fields of `DEFAULT_COORDINATES` (scheduler.js:99-102). -/
structure Coordinates where
  lat : ℚ
  lon : ℚ
deriving DecidableEq, Repr

/-- The fixed fallback location (scheduler.js:99-102): 30.3165, 78.0322. -/
def DEFAULT_COORDINATES : Coordinates :=
  ⟨mkRat 303165 10000, mkRat 780322 10000⟩

/-- Embeds `WEATHER_ENDPOINT` (scheduler.js:104). -/
def WEATHER_ENDPOINT : String :=
  "https://api.openweathermap.org/data/2.5/weather"

/-- Embeds `AIR_QUALITY_ENDPOINT` (scheduler.js:105-106). -/
def AIR_QUALITY_ENDPOINT : String :=
  "https://api.openweathermap.org/data/2.5/air_pollution"

/-- One entry of the weather response's condition list. -/
structure WeatherCondition where
  description : Option String
deriving DecidableEq, Repr

/-- The `main` measurement block of the weather response. -/
structure WeatherMain where
  temp : Option ℚ
  humidity : Option ℚ
deriving DecidableEq, Repr

/-- The optional `rain` block; `h1` and `h3` stand for the `"1h"` and `"3h"`
fields. -/
structure WeatherRain where
  h1 : Option ℚ
  h3 : Option ℚ
deriving DecidableEq, Repr

/-- The `coord` block of the weather response. -/
structure WeatherCoord where
  lat : Option ℚ
  lon : Option ℚ
deriving DecidableEq, Repr

/-- The `sys` block of the weather response. -/
structure WeatherSys where
  country : Option String
deriving DecidableEq, Repr

/-- The parsed JSON body of a successful weather response; `none` in the
`weather` field also models a non-array value (the `Array.isArray` guard). -/
structure WeatherResponse where
  weather : Option (List WeatherCondition)
  main : Option WeatherMain
  rain : Option WeatherRain
  sys : Option WeatherSys
  coord : Option WeatherCoord
deriving DecidableEq, Repr

/-- The normalized weather record returned by `fetchWeatherByCity`. -/
structure WeatherRecord where
  city : String
  country : String
  latitude : ℚ
  longitude : ℚ
  temperature : Option ℚ
  condition : String
  humidity : Option ℚ
  rainfall : ℚ
  source : String
deriving DecidableEq, Repr

/-- The success path of `fetchWeatherByCity` (scheduler.js:166-208) after a
200 response: the missing-key and non-ok failures are the thrown paths and
appear as `Except.error` outcomes at the aggregator.  The `location` nesting
of the source record is flattened into the four leading fields. -/
def fetchWeatherByCity (city : String) (data : WeatherResponse) : WeatherRecord :=
  let trimmedCity := if jsTrim city = "" then "Dehradun" else jsTrim city
  let weatherDescription :=
    match data.weather with
    | some (c :: _) => c.description.getD ""
    | _ => ""
  let rainfall : ℚ :=
    match data.rain with
    | none => 0
    | some r => ((r.h1.orElse (fun _ => r.h3)).getD 0)
  { city := toTitleCase trimmedCity
    country :=
      match data.sys.bind (fun s => s.country) with
      | some c => if c = "" then "IN" else c
      | none => "IN"
    latitude := (data.coord.bind (fun c => c.lat)).getD DEFAULT_COORDINATES.lat
    longitude := (data.coord.bind (fun c => c.lon)).getD DEFAULT_COORDINATES.lon
    temperature := formatNumber (data.main.bind (fun m => m.temp)) 0
    condition := toTitleCase (if weatherDescription = "" then "Unavailable" else weatherDescription)
    humidity := formatNumber (data.main.bind (fun m => m.humidity)) 0
    rainfall := (formatNumber (some rainfall) 1).getD 0
    source := WEATHER_ENDPOINT }

/-- Embeds `mapAqiCategory` (scheduler.js:210-219): a JS object lookup keyed by the
string form of the value, so exactly the values 1–5 hit the table and any
other value — including `undefined`, modelled by `none` — falls back to
`"Unavailable"`. -/
def mapAqiCategory (value : Option ℚ) : String :=
  match value with
  | none => "Unavailable"
  | some q =>
    if q = 1 then "Good"
    else if q = 2 then "Fair"
    else if q = 3 then "Moderate"
    else if q = 4 then "Poor"
    else if q = 5 then "Very Poor"
    else "Unavailable"

/-- The `main` block of one air-quality reading. -/
structure AirMain where
  aqi : Option ℚ
deriving DecidableEq, Repr

/-- One air-quality reading. -/
structure AirReading where
  main : Option AirMain
  components : List (String × ℚ)
deriving DecidableEq, Repr

/-- The normalized air-quality record returned by `fetchAirQualityByCoords`. -/
structure AirQualityRecord where
  index : Option ℚ
  category : String
  components : List (String × ℚ)
  source : String
deriving DecidableEq, Repr

/-- The record construction of `fetchAirQualityByCoords`
(scheduler.js:252-257) from the first reading; the `Number(...) || null`
index turns both `NaN` and `0` into `null`. -/
def airQualityRecordOfReading (reading : AirReading) : AirQualityRecord :=
  { index :=
      match reading.main.bind (fun m => m.aqi) with
      | none => none
      | some q => if q = 0 then none else some q
    category := mapAqiCategory (reading.main.bind (fun m => m.aqi))
    components := reading.components
    source := AIR_QUALITY_ENDPOINT }

/-- A normalized alert bulletin. -/
structure AlertBulletin where
  summary : String
  notices : List String
deriving DecidableEq, Repr

/-- The row-matching predicate of `fetchUttarakhandAlerts`
(scheduler.js:290-292): some cell, lower-cased, contains `"uttarakhand"`. -/
def alertRowMatches (row : List String) : Bool :=
  row.any (fun cell => containsSub (jsToLower cell) "uttarakhand")

/-- The notice filter of `fetchUttarakhandAlerts` (scheduler.js:302-304):
keep a collapsed cell when it is non-empty and does not match
`/n\/a|nil|no warning/i`. -/
def noticeKeep (entry : String) : Bool :=
  entry != "" &&
    !(containsSub (jsToLower entry) "n/a" ||
      containsSub (jsToLower entry) "nil" ||
      containsSub (jsToLower entry) "no warning")

/-- Bulletin built from the first matching row (scheduler.js:301-309): the
leading label cell is dropped, the rest collapsed and filtered, and the first
surviving notice (if any) becomes the summary line. -/
def alertBulletinOfRow (targetRow : List String) : AlertBulletin :=
  let notices := ((targetRow.drop 1).map collapseWs).filter noticeKeep
  { summary :=
      match notices with
      | [] => "No major warnings today."
      | n :: _ => n
    notices := notices }

/-- The row-processing of `fetchUttarakhandAlerts` (scheduler.js:276-310)
after a 200 response, over the extracted table rows: the first matching row
becomes the bulletin and no match yields the sentinel bulletin. -/
def fetchUttarakhandAlerts (rows : List (List String)) : AlertBulletin :=
  match rows.find? alertRowMatches with
  | none => { summary := "No major warnings today.", notices := [] }
  | some targetRow => alertBulletinOfRow targetRow

/-- A normalized seismic event. -/
structure SeismicEvent where
  location : String
  magnitude : Option ℚ
  timestamp : Option JSDate
deriving DecidableEq, Repr

/-- The JS `a || b` on numbers, with `none` modelling `NaN`: both `NaN` and
`0` are falsy and select `b`. -/
def jsOrNum (a b : Option ℚ) : Option ℚ :=
  match a with
  | none => b
  | some q => if q = 0 then b else some q

/-- Models `magnitude ? Number(magnitude.toFixed(1)) : null` (scheduler.js:356):
a falsy raw magnitude (`0` or `NaN`) is reported absent, anything else is
rounded to one decimal. -/
def finishMagnitude : Option ℚ → Option ℚ
  | none => none
  | some q => if q = 0 then none else some (jsToFixed 1 q)

/-- The per-row mapper of `fetchUttarakhandEarthquakes`
(scheduler.js:346-359): rows whose final cell does not mention the region map
to `null`; otherwise the magnitude prefers the fifth cell over the fourth and
the timestamp comes from the first two cells. -/
def quakeRowToEvent (cells : List String) : Option SeismicEvent :=
  let locationCell := (cells.getLast?).getD ""
  if containsSub (jsToLower locationCell) "uttarakhand" then
    some { location := stripHtml locationCell
           magnitude :=
             finishMagnitude (jsOrNum (jsNumber (cells.getD 4 "")) (jsNumber (cells.getD 3 "")))
           timestamp := parseEarthquakeDate (cells.getD 0 "") (cells.getD 1 "") }
  else none

/-- The sort key of the comparator `(b.timestamp?.getTime() || 0) -
(a.timestamp?.getTime() || 0)` (scheduler.js:361-363): a missing timestamp
sorts as the epoch. -/
def quakeTimeKey (e : SeismicEvent) : Int :=
  match e.timestamp with
  | some t => getTimeMs t
  | none => 0

/-- Insertion step of the descending-by-key sort. -/
def insertDescBy {α : Type} (key : α → Int) (x : α) : List α → List α
  | [] => [x]
  | y :: ys => if key y ≤ key x then x :: y :: ys else y :: insertDescBy key x ys

/-- A sort consistent with the descending comparator of scheduler.js:361-363
(the engine's sort algorithm itself is unspecified; any comparator-consistent
order is a faithful model). -/
def sortDescBy {α : Type} (key : α → Int) : List α → List α
  | [] => []
  | x :: xs => insertDescBy key x (sortDescBy key xs)

/-- The recency filter (scheduler.js:365-368): keep events with a timestamp
no older than 24 hours before `nowMs`. -/
def quakeRecent (nowMs : Int) (e : SeismicEvent) : Bool :=
  match e.timestamp with
  | some t => decide (nowMs - 86400000 ≤ getTimeMs t)
  | none => false

/-- The row-processing of `fetchUttarakhandEarthquakes`
(scheduler.js:328-369) after a 200 response, over the extracted table rows,
with `nowMs` the aggregation instant `Date.now()`: keep rows of at least six
cells, map them to events, drop non-matching rows, sort descending by
timestamp and apply the 24-hour recency window. -/
def fetchUttarakhandEarthquakes (rows : List (List String)) (nowMs : Int) : List SeismicEvent :=
  let rows6 := rows.filter (fun r => decide (6 ≤ r.length))
  let found := rows6.filterMap quakeRowToEvent
  let sorted := sortDescBy quakeTimeKey found
  sorted.filter (quakeRecent nowMs)

/-- The four per-source outcomes feeding one aggregation call: each models
the full source call (network plus processing), `Except.error` carrying the
thrown message. -/
structure SourceOutcomes where
  weather : Except String WeatherRecord
  airQuality : Except String AirQualityRecord
  alerts : Except String AlertBulletin
  earthquakes : Except String (List SeismicEvent)

/-- The composite summary returned by `collectEnvironmentalSummary`. -/
structure EnvironmentalSummary where
  city : String
  weather : Option WeatherRecord
  airQuality : Option AirQualityRecord
  alerts : Option AlertBulletin
  earthquakes : List SeismicEvent
  errors : List String
deriving DecidableEq, Repr

/-- Embeds `collectEnvironmentalSummary` (scheduler.js:371-415): every source
failure is caught and converted to a labelled entry of `errors`, in source
order; a failed alerts fetch additionally substitutes the sentinel
bulletin. -/
def collectEnvironmentalSummary (city : String) (outcome : SourceOutcomes) : EnvironmentalSummary :=
  let cityName := toTitleCase (if jsTrim city = "" then "Dehradun" else jsTrim city)
  let weatherStep :=
    match outcome.weather with
    | .ok w => (some w, ([] : List String))
    | .error e => (none, ["Weather: " ++ e])
  let airStep :=
    match outcome.airQuality with
    | .ok a => (some a, ([] : List String))
    | .error e => (none, ["Air Quality: " ++ e])
  let alertsStep :=
    match outcome.alerts with
    | .ok b => (some b, ([] : List String))
    | .error e =>
      (some { summary := "Alerts service unavailable.", notices := [] }, ["Alerts: " ++ e])
  let quakesStep :=
    match outcome.earthquakes with
    | .ok l => (l, ([] : List String))
    | .error e => (([] : List SeismicEvent), ["Earthquakes: " ++ e])
  { city := cityName
    weather := weatherStep.1
    airQuality := airStep.1
    alerts := alertsStep.1
    earthquakes := quakesStep.1
    errors := weatherStep.2 ++ airStep.2 ++ alertsStep.2 ++ quakesStep.2 }

/-! Concrete data used by the theorems below. -/

/-- A successful weather response: temperature 21.6 °C, humidity 54.2 %,
no rain block. -/
def sampleWeatherResponse : WeatherResponse :=
  { weather := some [{ description := some "clear sky" }]
    main := some { temp := some (mkRat 108 5), humidity := some (mkRat 271 5) }
    rain := none
    sys := some { country := some "IN" }
    coord := some { lat := some 30, lon := some 78 } }

/-- A structurally empty weather response (no condition list at all). -/
def emptyWeatherResponse : WeatherResponse :=
  ⟨none, none, none, none, none⟩

/-- A weather record for successful-outcome scenarios. -/
def sampleWeatherRecord : WeatherRecord :=
  fetchWeatherByCity "Dehradun" sampleWeatherResponse

/-- An air-quality record for successful-outcome scenarios. -/
def sampleAirRecord : AirQualityRecord :=
  airQualityRecordOfReading { main := some { aqi := some 2 }, components := [] }

/-- A bulletin for successful-outcome scenarios. -/
def sampleBulletin : AlertBulletin :=
  { summary := "No major warnings today.", notices := [] }

/-- The all-sources-fail outcome. -/
def allFailOutcome : SourceOutcomes :=
  ⟨.error "boom", .error "boom", .error "boom", .error "boom"⟩

/-- One feed row whose raw magnitude 0.04 rounds to 0.0. -/
def quakeRowsC10 : List (List String) :=
  [["15/03/2024", "10:30", "x", "0", "0.04", "Uttarakhand"]]

/-- One well-formed feed row with magnitude 4.5. -/
def quakeRowsC4 : List (List String) :=
  [["15/03/2024", "10:30", "x", "3.9", "4.5", "Dist Chamoli Uttarakhand"]]

/-- Aggregation instant matching `quakeRowsC10`. -/
def nowC10 : Int := getTimeMs ⟨2024, 3, 15, 10, 30⟩

/-- Aggregation instant 90 minutes after the `quakeRowsC4` event. -/
def nowC4 : Int := getTimeMs ⟨2024, 3, 15, 12, 0⟩

end Scheduler

namespace Scheduler

/-! Helper lemmas. -/

theorem mem_insertDescBy {α : Type} {key : α → Int} {x z : α} :
    ∀ {l : List α}, z ∈ insertDescBy key x l → z = x ∨ z ∈ l := by
  intro l
  induction l with
  | nil =>
    intro h
    simp only [insertDescBy, List.mem_singleton] at h
    exact .inl h
  | cons y ys ih =>
    intro h
    by_cases hk : key y ≤ key x
    · simp only [insertDescBy, if_pos hk, List.mem_cons] at h
      rcases h with h | h | h
      · exact .inl h
      · exact .inr (by simp [h])
      · exact .inr (by simp [h])
    · simp only [insertDescBy, if_neg hk, List.mem_cons] at h
      rcases h with h | h
      · exact .inr (by simp [h])
      · rcases ih h with h | h
        · exact .inl h
        · exact .inr (by simp [h])

theorem mem_sortDescBy {α : Type} {key : α → Int} {z : α} :
    ∀ {l : List α}, z ∈ sortDescBy key l → z ∈ l := by
  intro l
  induction l with
  | nil => intro h; simp only [sortDescBy] at h; cases h
  | cons y ys ih =>
    intro h
    rcases mem_insertDescBy h with h | h
    · simp [h]
    · exact List.mem_cons_of_mem _ (ih h)

theorem pairwise_insertDescBy {α : Type} {key : α → Int} {x : α} :
    ∀ {l : List α}, l.Pairwise (fun a b => key b ≤ key a) →
      (insertDescBy key x l).Pairwise (fun a b => key b ≤ key a) := by
  intro l
  induction l with
  | nil => intro _; simp [insertDescBy]
  | cons y ys ih =>
    intro h
    rcases List.pairwise_cons.mp h with ⟨hy, hys⟩
    by_cases hk : key y ≤ key x
    · simp only [insertDescBy, if_pos hk]
      refine List.pairwise_cons.mpr ⟨?_, h⟩
      intro z hz
      rcases List.mem_cons.mp hz with rfl | hz
      · exact hk
      · exact le_trans (hy z hz) hk
    · simp only [insertDescBy, if_neg hk]
      refine List.pairwise_cons.mpr ⟨?_, ih hys⟩
      intro z hz
      rcases mem_insertDescBy hz with rfl | hz
      · exact le_of_not_le hk
      · exact hy z hz

theorem pairwise_sortDescBy {α : Type} {key : α → Int} :
    ∀ (l : List α), (sortDescBy key l).Pairwise (fun a b => key b ≤ key a) := by
  intro l
  induction l with
  | nil => simp [sortDescBy]
  | cons y ys ih => exact pairwise_insertDescBy ih

theorem data_ne_nil_of_ne_empty {s : String} (h : s ≠ "") : s.data ≠ [] := by
  intro hd
  apply h
  cases s with
  | mk l => cases hd; rfl

theorem mk_ne_empty_of_ne_nil {l : List Char} (h : l ≠ []) : String.mk l ≠ "" := by
  intro hs
  exact h (by simpa using congrArg String.data hs)

theorem dropWhile_head_false {α : Type} {p : α → Bool} :
    ∀ (l : List α) {c r}, l.dropWhile p = c :: r → p c = false := by
  intro l
  induction l with
  | nil => intro c r h; simp [List.dropWhile] at h
  | cons x xs ih =>
    intro c r h
    by_cases hx : p x
    · exact ih (by simpa [List.dropWhile, hx] using h)
    · rw [List.dropWhile_cons_of_neg hx] at h
      cases h
      exact Bool.of_not_eq_true hx

theorem char_eq_iff_toNat {c d : Char} : c = d ↔ c.toNat = d.toNat :=
  Char.ext_iff.trans UInt32.ext_iff

theorem isWhitespace_eq_false_of_ge {c : Char} (h : 65 ≤ c.toNat) :
    c.isWhitespace = false := by
  have hs : (' ').toNat = 32 := rfl
  have ht : ('\t').toNat = 9 := rfl
  have hr : ('\r').toNat = 13 := rfl
  have hn : ('\n').toNat = 10 := rfl
  have h1 : c ≠ ' ' := fun he => by have := char_eq_iff_toNat.mp he; omega
  have h2 : c ≠ '\t' := fun he => by have := char_eq_iff_toNat.mp he; omega
  have h3 : c ≠ '\r' := fun he => by have := char_eq_iff_toNat.mp he; omega
  have h4 : c ≠ '\n' := fun he => by have := char_eq_iff_toNat.mp he; omega
  simp [Char.isWhitespace, h1, h2, h3, h4]

theorem toNat_toLower_of_upper {c : Char} (h : 65 ≤ c.toNat ∧ c.toNat ≤ 90) :
    (Char.toLower c).toNat = c.toNat + 32 := by
  have hv : (c.toNat + 32).isValidChar := Or.inl (by omega)
  simp only [Char.toLower]
  rw [if_pos ⟨h.1, h.2⟩, Char.ofNat, dif_pos hv]
  rfl

theorem isWhitespace_toLower (c : Char) :
    (Char.toLower c).isWhitespace = c.isWhitespace := by
  by_cases h : 65 ≤ c.toNat ∧ c.toNat ≤ 90
  · have hl := toNat_toLower_of_upper h
    rw [isWhitespace_eq_false_of_ge (by omega : 65 ≤ (Char.toLower c).toNat),
      isWhitespace_eq_false_of_ge h.1]
  · simp only [Char.toLower]
    rw [if_neg h]

theorem splitWsAux_exists :
    ∀ (l : List Char) (cur : List Char),
      (cur ≠ [] ∨ ∃ c ∈ l, c.isWhitespace = false) →
      ∃ w ∈ splitWsAux cur l, w ≠ [] := by
  intro l
  induction l with
  | nil =>
    intro cur h
    rcases h with h | ⟨c, hc, _⟩
    · exact ⟨cur.reverse, by simp [splitWsAux], by simpa using h⟩
    · simp at hc
  | cons c rest ih =>
    intro cur h
    by_cases hw : c.isWhitespace
    · simp only [splitWsAux, if_pos hw]
      rcases h with h | ⟨d, hd, hdw⟩
      · exact ⟨cur.reverse, by simp, by simpa using h⟩
      · have hdr : d ∈ rest := by
          rcases List.mem_cons.mp hd with rfl | hdr
          · rw [hw] at hdw; cases hdw
          · exact hdr
        obtain ⟨w, hw1, hw2⟩ := ih [] (.inr ⟨d, hdr, hdw⟩)
        exact ⟨w, List.mem_cons_of_mem _ hw1, hw2⟩
    · simp only [splitWsAux, if_neg hw]
      exact ih (c :: cur) (.inl (by simp))

theorem splitWs_ne_nil {l : List Char} (h : ∃ c ∈ l, c.isWhitespace = false) :
    splitWs l ≠ [] := by
  obtain ⟨w, hw1, hw2⟩ := splitWsAux_exists l [] (.inr h)
  exact List.ne_nil_of_mem (List.mem_filter.mpr ⟨hw1, by simpa using hw2⟩)

theorem splitWs_all_ne_nil {l : List Char} : ∀ w ∈ splitWs l, w ≠ [] := by
  intro w hw
  simpa using (List.mem_filter.mp hw).2

theorem capWord_ne_nil {w : List Char} (h : w ≠ []) : capWord w ≠ [] := by
  cases w with
  | nil => cases h rfl
  | cons c rest => simp [capWord]

theorem joinWords_ne_nil :
    ∀ {ws : List (List Char)}, ws ≠ [] → (∀ w ∈ ws, w ≠ []) → joinWords ws ≠ [] := by
  intro ws
  match ws with
  | [] => intro h _; cases h rfl
  | [w] => intro _ hall; simpa [joinWords] using hall w (by simp)
  | w :: w2 :: rest =>
    intro _ hall
    have hw : w ≠ [] := hall w (by simp)
    cases w with
    | nil => cases hw rfl
    | cons c cs => simp [joinWords]

theorem toTitleCase_ne_empty {s : String}
    (h : ∃ c ∈ s.data, c.isWhitespace = false) : toTitleCase s ≠ "" := by
  obtain ⟨c, hc, hcw⟩ := h
  have hlmem : Char.toLower c ∈ s.data.map Char.toLower := List.mem_map_of_mem _ hc
  have hlw : (Char.toLower c).isWhitespace = false := by
    rw [isWhitespace_toLower]; exact hcw
  have hsplit := splitWs_ne_nil ⟨Char.toLower c, hlmem, hlw⟩
  apply mk_ne_empty_of_ne_nil
  apply joinWords_ne_nil
  · simpa using hsplit
  · intro w hw
    obtain ⟨v, hv1, hv2⟩ := List.mem_map.mp hw
    rw [← hv2]
    exact capWord_ne_nil (splitWs_all_ne_nil v hv1)

theorem jsTrim_has_nonws {s : String} (h : jsTrim s ≠ "") :
    ∃ c ∈ (jsTrim s).data, c.isWhitespace = false := by
  have hd : (jsTrim s).data =
      ((s.data.dropWhile Char.isWhitespace).reverse.dropWhile Char.isWhitespace).reverse := rfl
  have hne : ((s.data.dropWhile Char.isWhitespace).reverse.dropWhile Char.isWhitespace).reverse ≠ [] := by
    rw [← hd]; exact data_ne_nil_of_ne_empty h
  have hne2 : (s.data.dropWhile Char.isWhitespace).reverse.dropWhile Char.isWhitespace ≠ [] := by
    intro hx; apply hne; rw [hx]; rfl
  obtain ⟨c, r, hcr⟩ := List.exists_cons_of_ne_nil hne2
  refine ⟨c, ?_, dropWhile_head_false _ hcr⟩
  rw [hd, List.mem_reverse, hcr]
  simp

/-- The computed city name of a summary, factored for reuse. -/
theorem collect_city_ne_empty (city : String) :
    toTitleCase (if jsTrim city = "" then "Dehradun" else jsTrim city) ≠ "" := by
  by_cases h : jsTrim city = ""
  · rw [if_pos h]; decide
  · rw [if_neg h]; exact toTitleCase_ne_empty (jsTrim_has_nonws h)

theorem string_append_ne_append {s t : String} (m n : String)
    (h1 : ¬ s.data <+: t.data) (h2 : ¬ t.data <+: s.data) : s ++ m ≠ t ++ n := by
  intro h
  have hd : s.data ++ m.data = t.data ++ n.data := by
    have := congrArg String.data h
    simpa [String.data_append] using this
  rcases List.append_eq_append_iff.mp hd with ⟨c, hc, _⟩ | ⟨c, hc, _⟩
  · exact h1 ⟨c, hc.symm⟩
  · exact h2 ⟨c, hc.symm⟩

theorem weatherLabel_ne_air (m n : String) :
    "Weather: " ++ m ≠ "Air Quality: " ++ n :=
  string_append_ne_append m n (by decide) (by decide)

theorem weatherLabel_ne_alerts (m n : String) :
    "Weather: " ++ m ≠ "Alerts: " ++ n :=
  string_append_ne_append m n (by decide) (by decide)

theorem weatherLabel_ne_quakes (m n : String) :
    "Weather: " ++ m ≠ "Earthquakes: " ++ n :=
  string_append_ne_append m n (by decide) (by decide)

theorem airLabel_ne_weather (m n : String) :
    "Air Quality: " ++ m ≠ "Weather: " ++ n :=
  string_append_ne_append m n (by decide) (by decide)

theorem airLabel_ne_alerts (m n : String) :
    "Air Quality: " ++ m ≠ "Alerts: " ++ n :=
  string_append_ne_append m n (by decide) (by decide)

theorem airLabel_ne_quakes (m n : String) :
    "Air Quality: " ++ m ≠ "Earthquakes: " ++ n :=
  string_append_ne_append m n (by decide) (by decide)

theorem quakesLabel_ne_weather (m n : String) :
    "Earthquakes: " ++ m ≠ "Weather: " ++ n :=
  string_append_ne_append m n (by decide) (by decide)

theorem quakesLabel_ne_air (m n : String) :
    "Earthquakes: " ++ m ≠ "Air Quality: " ++ n :=
  string_append_ne_append m n (by decide) (by decide)

theorem quakesLabel_ne_alerts (m n : String) :
    "Earthquakes: " ++ m ≠ "Alerts: " ++ n :=
  string_append_ne_append m n (by decide) (by decide)

theorem jsToFixed_zero_int (q : ℚ) : ∃ n : ℤ, jsToFixed 0 q = (n : ℚ) := by
  unfold jsToFixed
  by_cases h : q.num < 0
  · exact ⟨-(jsToFixedCore 0 q.num.natAbs q.den : Int),
      by rw [if_pos h]; simp [pow_zero, Rat.mkRat_one]⟩
  · exact ⟨(jsToFixedCore 0 q.num.natAbs q.den : Int),
      by rw [if_neg h]; simp [pow_zero, Rat.mkRat_one]⟩

theorem jsToFixed_one_mul_ten_int (q : ℚ) :
    ∃ n : ℤ, jsToFixed 1 q * 10 = (n : ℚ) := by
  unfold jsToFixed
  by_cases h : q.num < 0
  · refine ⟨-(jsToFixedCore 1 q.num.natAbs q.den : Int), ?_⟩
    rw [if_pos h, Rat.mkRat_eq_div]
    push_cast
    field_simp
  · refine ⟨(jsToFixedCore 1 q.num.natAbs q.den : Int), ?_⟩
    rw [if_neg h, Rat.mkRat_eq_div]
    push_cast
    field_simp

/-! The claims. -/

/-- C7: the air-quality category mapping is total — indices 1 through 5 map
to "Good", "Fair", "Moderate", "Poor", "Very Poor", every other numeric
value and an absent index map to "Unavailable", and the category is always a
non-empty string. -/
theorem spec_C7 :
    mapAqiCategory (some 1) = "Good" ∧
    mapAqiCategory (some 2) = "Fair" ∧
    mapAqiCategory (some 3) = "Moderate" ∧
    mapAqiCategory (some 4) = "Poor" ∧
    mapAqiCategory (some 5) = "Very Poor" ∧
    mapAqiCategory none = "Unavailable" ∧
    (∀ q : ℚ, q ≠ 1 → q ≠ 2 → q ≠ 3 → q ≠ 4 → q ≠ 5 →
      mapAqiCategory (some q) = "Unavailable") ∧
    (∀ v : Option ℚ, mapAqiCategory v ≠ "") := by
  refine ⟨by decide, by decide, by decide, by decide, by decide, rfl, ?_, ?_⟩
  · intro q h1 h2 h3 h4 h5
    simp [mapAqiCategory, h1, h2, h3, h4, h5]
  · intro v
    rcases v with _ | q
    · decide
    · simp only [mapAqiCategory]
      split
      · decide
      · split
        · decide
        · split
          · decide
          · split
            · decide
            · split
              · decide
              · decide

/-- C7 witness: index 7 is out of range and maps to "Unavailable". -/
theorem spec_C7_witness : mapAqiCategory (some 7) = "Unavailable" :=
  spec_C7.2.2.2.2.2.2.1 7 (by norm_num) (by norm_num) (by norm_num)
    (by norm_num) (by norm_num)

/-- C9: the rainfall of a successful weather response prefers the 1-hour
measurement over the 3-hour measurement over zero, and a response without a
rain block yields rainfall 0 (the field is total, never absent). -/
theorem spec_C9 :
    ∀ (city : String) (data : WeatherResponse),
      (data.rain = none → (fetchWeatherByCity city data).rainfall = 0) ∧
      (∀ r a, data.rain = some r → r.h1 = some a →
        (fetchWeatherByCity city data).rainfall = jsToFixed 1 a) ∧
      (∀ r b, data.rain = some r → r.h1 = none → r.h3 = some b →
        (fetchWeatherByCity city data).rainfall = jsToFixed 1 b) ∧
      (∀ r, data.rain = some r → r.h1 = none → r.h3 = none →
        (fetchWeatherByCity city data).rainfall = 0) := by
  intro city data
  refine ⟨?_, ?_, ?_, ?_⟩
  · intro h
    simp only [fetchWeatherByCity, h, formatNumber, Option.map_some, Option.getD_some]
    decide
  · intro r a hr ha
    simp [fetchWeatherByCity, hr, ha, formatNumber, Option.orElse]
  · intro r b hr h1 h3
    simp [fetchWeatherByCity, hr, h1, h3, formatNumber, Option.orElse]
  · intro r hr h1 h3
    simp only [fetchWeatherByCity, hr, h1, h3, formatNumber, Option.orElse,
      Option.getD_some, Option.map_some]
    decide

/-- C9 witness: a rain block carrying a 1-hour figure of 1.5 mm yields the
rounded 1-hour figure. -/
theorem spec_C9_witness :
    (fetchWeatherByCity "Dehradun"
        { emptyWeatherResponse with
            rain := some { h1 := some (mkRat 3 2), h3 := some 9 } }).rainfall =
      jsToFixed 1 (mkRat 3 2) :=
  (spec_C9 "Dehradun" _).2.1 { h1 := some (mkRat 3 2), h3 := some 9 } (mkRat 3 2) rfl rfl

/-- C3 (amended): on a successful weather response, temperature and humidity
are rounded to the nearest integer (ties away from zero, per `toFixed`) and
rainfall to one decimal; a temperature of 21.6 yields 22 — not 21 — and a
humidity of 54.2 yields 54. -/
theorem spec_C3 :
    (fetchWeatherByCity "Dehradun" sampleWeatherResponse).temperature = some 22 ∧
    (fetchWeatherByCity "Dehradun" sampleWeatherResponse).humidity = some 54 ∧
    (∀ (city : String) (data : WeatherResponse) (m : WeatherMain) (t : ℚ),
      data.main = some m → m.temp = some t →
      ∃ n : ℤ, (fetchWeatherByCity city data).temperature = some (n : ℚ)) ∧
    (∀ (city : String) (data : WeatherResponse) (m : WeatherMain) (u : ℚ),
      data.main = some m → m.humidity = some u →
      ∃ n : ℤ, (fetchWeatherByCity city data).humidity = some (n : ℚ)) ∧
    (∀ (city : String) (data : WeatherResponse),
      ∃ n : ℤ, (fetchWeatherByCity city data).rainfall * 10 = (n : ℚ)) := by
  refine ⟨by decide, by decide, ?_, ?_, ?_⟩
  · intro city data m t hm ht
    obtain ⟨n, hn⟩ := jsToFixed_zero_int t
    exact ⟨n, by simp [fetchWeatherByCity, hm, ht, formatNumber, hn]⟩
  · intro city data m u hm hu
    obtain ⟨n, hn⟩ := jsToFixed_zero_int u
    exact ⟨n, by simp [fetchWeatherByCity, hm, hu, formatNumber, hn]⟩
  · intro city data
    obtain ⟨n, hn⟩ := jsToFixed_one_mul_ten_int
      (match data.rain with
       | none => (0 : ℚ)
       | some r => ((r.h1.orElse (fun _ => r.h3)).getD 0))
    exact ⟨n, by simpa [fetchWeatherByCity, formatNumber] using hn⟩

/-- C3 witness: the temperature rounding applied to the sample response. -/
theorem spec_C3_witness :
    ∃ n : ℤ, (fetchWeatherByCity "Dehradun" sampleWeatherResponse).temperature = some (n : ℚ) :=
  spec_C3.2.2.1 "Dehradun" sampleWeatherResponse
    { temp := some (mkRat 108 5), humidity := some (mkRat 271 5) } (mkRat 108 5) rfl rfl

/-- C3 counterexample: the claimed value 21 for a 21.6 °C response is wrong —
`toFixed(0)` rounds to nearest, producing 22. -/
theorem spec_C3_cex :
    (fetchWeatherByCity "Dehradun" sampleWeatherResponse).temperature ≠ some 21 ∧
    (fetchWeatherByCity "Dehradun" sampleWeatherResponse).temperature = some 22 := by
  exact ⟨by decide, by decide⟩

/-- C8 (amended): on a successful weather response the condition is the
title-cased first condition description when that description is a non-empty
string, and the fixed string "Unavailable" — not the title-cased empty
string — when the condition list or its description is missing or empty. -/
theorem spec_C8 :
    ∀ (city : String) (data : WeatherResponse),
      (∀ c rest d, data.weather = some (c :: rest) → c.description = some d → d ≠ "" →
        (fetchWeatherByCity city data).condition = toTitleCase d) ∧
      (data.weather = none →
        (fetchWeatherByCity city data).condition = "Unavailable") ∧
      (data.weather = some [] →
        (fetchWeatherByCity city data).condition = "Unavailable") ∧
      (∀ c rest, data.weather = some (c :: rest) →
        (c.description = none ∨ c.description = some "") →
        (fetchWeatherByCity city data).condition = "Unavailable") := by
  intro city data
  refine ⟨?_, ?_, ?_, ?_⟩
  · intro c rest d hw hd hne
    simp [fetchWeatherByCity, hw, hd, hne]
  · intro hw
    simp only [fetchWeatherByCity, hw]
    decide
  · intro hw
    simp only [fetchWeatherByCity, hw]
    decide
  · intro c rest hw hd
    rcases hd with hd | hd <;>
      · simp only [fetchWeatherByCity, hw, hd, Option.getD]
        decide

/-- C8 witness: a non-empty description is title-cased. -/
theorem spec_C8_witness :
    (fetchWeatherByCity "Dehradun" sampleWeatherResponse).condition = toTitleCase "clear sky" :=
  (spec_C8 "Dehradun" sampleWeatherResponse).1 { description := some "clear sky" } []
    "clear sky" rfl rfl (by decide)

/-- C8 counterexample: with no condition present the field is "Unavailable",
which differs from the title-cased empty string required by the claim. -/
theorem spec_C8_cex :
    (fetchWeatherByCity "Dehradun" emptyWeatherResponse).condition = "Unavailable" ∧
    (fetchWeatherByCity "Dehradun" emptyWeatherResponse).condition ≠ toTitleCase "" := by
  exact ⟨by decide, by decide⟩

/-- C5: the temporal parser maps date cell "15/03/2024" and time cell
"10:30" to the local instant 2024-03-15T10:30, returns the unparsable result
`none` on garbage, and, being a total function into an option type, never
throws. -/
theorem spec_C5 :
    parseEarthquakeDate "15/03/2024" "10:30" =
      some { year := 2024, month := 3, day := 15, hour := 10, minute := 30 } ∧
    parseEarthquakeDate "not a date" "not a time" = none ∧
    (∀ dateStr timeStr : String,
      parseEarthquakeDate dateStr timeStr = none ∨
      ∃ t, parseEarthquakeDate dateStr timeStr = some t) := by
  refine ⟨by decide, by decide, ?_⟩
  intro dateStr timeStr
  cases h : parseEarthquakeDate dateStr timeStr with
  | none => exact .inl rfl
  | some t => exact .inr ⟨t, rfl⟩

/-- C6: alert row matching is case-insensitive (a cell "UTTARAKHAND" matches
the lower-case target region), the first matching row is taken, and with no
matching row the sentinel "no warnings" bulletin with an empty notice list is
returned as a normal outcome. -/
theorem spec_C6 :
    alertRowMatches ["UTTARAKHAND"] = true ∧
    (∀ (pre post : List (List String)) (r : List String),
      (∀ rr ∈ pre, alertRowMatches rr = false) → alertRowMatches r = true →
      fetchUttarakhandAlerts (pre ++ r :: post) = alertBulletinOfRow r) ∧
    (∀ rows : List (List String),
      (∀ rr ∈ rows, alertRowMatches rr = false) →
      fetchUttarakhandAlerts rows = { summary := "No major warnings today.", notices := [] }) := by
  refine ⟨by decide, ?_, ?_⟩
  · intro pre post r hpre hr
    unfold fetchUttarakhandAlerts
    have hnone : pre.find? alertRowMatches = none :=
      List.find?_eq_none.mpr (fun x hx => by simp [hpre x hx])
    rw [List.find?_append, hnone, Option.none_or, List.find?_cons_of_pos _ hr]
  · intro rows hrows
    unfold fetchUttarakhandAlerts
    rw [List.find?_eq_none.mpr (fun x hx => by simp [hrows x hx])]

/-- C6 witness: the second row matches through its upper-case cell and is
taken over the non-matching first row. -/
theorem spec_C6_witness :
    fetchUttarakhandAlerts [["nothing here"], ["Region", "UTTARAKHAND: heavy rain"]] =
      alertBulletinOfRow ["Region", "UTTARAKHAND: heavy rain"] :=
  spec_C6.2.1 [["nothing here"]] [] ["Region", "UTTARAKHAND: heavy rain"]
    (by decide) (by decide)

/-- C1: with every combination of per-source outcomes the aggregator returns
a summary (it never raises), and when all four sources fail the summary
still has a non-empty location name, the substitute "alerts unavailable"
bulletin, an empty seismic list, absent weather and air-quality fields, and
exactly four source-error entries. -/
theorem spec_C1 :
    ∀ (city e1 e2 e3 e4 : String),
      (collectEnvironmentalSummary city ⟨.error e1, .error e2, .error e3, .error e4⟩ =
        { city := toTitleCase (if jsTrim city = "" then "Dehradun" else jsTrim city)
          weather := none
          airQuality := none
          alerts := some { summary := "Alerts service unavailable.", notices := [] }
          earthquakes := []
          errors := ["Weather: " ++ e1, "Air Quality: " ++ e2,
            "Alerts: " ++ e3, "Earthquakes: " ++ e4] }) ∧
      (collectEnvironmentalSummary city
          ⟨.error e1, .error e2, .error e3, .error e4⟩).errors.length = 4 ∧
      (collectEnvironmentalSummary city
          ⟨.error e1, .error e2, .error e3, .error e4⟩).city ≠ "" ∧
      (∀ o : SourceOutcomes, ∃ s, collectEnvironmentalSummary city o = s) := by
  intro city e1 e2 e3 e4
  refine ⟨rfl, rfl, ?_, fun o => ⟨_, rfl⟩⟩
  exact collect_city_ne_empty city

/-- C2 counterexample: the claimed present-field/error-entry exclusivity
fails for the alerts source — on an alerts failure the summary carries both
the substituted (present) bulletin and the "Alerts: …" error entry. -/
theorem spec_C2_cex :
    (collectEnvironmentalSummary "Dehradun" allFailOutcome).alerts.isSome = true ∧
    "Alerts: boom" ∈ (collectEnvironmentalSummary "Dehradun" allFailOutcome).errors := by
  exact ⟨rfl, by decide⟩

/-- C2 (amended): every summary has at most four source-error entries; for
the weather and air-quality sources a present field and a corresponding
labelled error entry are mutually exclusive; the alerts field is always
present (on failure the sentinel bulletin is substituted, coexisting with
its error entry); and the seismic list is empty whenever its error entry is
present. -/
theorem spec_C2 :
    ∀ (city : String) (o : SourceOutcomes),
      ((collectEnvironmentalSummary city o).errors.length ≤ 4) ∧
      (¬((collectEnvironmentalSummary city o).weather.isSome = true ∧
        ∃ m, ("Weather: " ++ m) ∈ (collectEnvironmentalSummary city o).errors)) ∧
      (¬((collectEnvironmentalSummary city o).airQuality.isSome = true ∧
        ∃ m, ("Air Quality: " ++ m) ∈ (collectEnvironmentalSummary city o).errors)) ∧
      ((collectEnvironmentalSummary city o).alerts.isSome = true) ∧
      ((∃ m, ("Earthquakes: " ++ m) ∈ (collectEnvironmentalSummary city o).errors) →
        (collectEnvironmentalSummary city o).earthquakes = []) := by
  intro city o
  obtain ⟨w, a, b, q⟩ := o
  cases w <;> cases a <;> cases b <;> cases q <;>
    simp [collectEnvironmentalSummary, weatherLabel_ne_air, weatherLabel_ne_alerts,
      weatherLabel_ne_quakes, airLabel_ne_weather, airLabel_ne_alerts, airLabel_ne_quakes,
      quakesLabel_ne_weather, quakesLabel_ne_air, quakesLabel_ne_alerts]

/-- C2 witness: a concrete aggregation in which only the seismic source
fails has an empty seismic list. -/
theorem spec_C2_witness :
    (collectEnvironmentalSummary "Dehradun"
        ⟨.ok sampleWeatherRecord, .ok sampleAirRecord, .ok sampleBulletin,
          .error "feed down"⟩).earthquakes = [] :=
  (spec_C2 "Dehradun"
      ⟨.ok sampleWeatherRecord, .ok sampleAirRecord, .ok sampleBulletin,
        .error "feed down"⟩).2.2.2.2 ⟨"feed down", by decide⟩

theorem finishMagnitude_cases (m : Option ℚ) :
    finishMagnitude m = none ∨
    ∃ q : ℚ, q ≠ 0 ∧ finishMagnitude m = some (jsToFixed 1 q) := by
  cases m with
  | none => exact .inl rfl
  | some q =>
    by_cases h : q = 0
    · exact .inl (by simp [finishMagnitude, h])
    · exact .inr ⟨q, h, by simp [finishMagnitude, h]⟩

/-- C4: every event the seismic source returns carries a parsed timestamp no
older than 24 hours before the aggregation instant (events with no parsed
timestamp and events older than the window are excluded), and the returned
list is ordered descending by timestamp. -/
theorem spec_C4 :
    ∀ (rows : List (List String)) (nowMs : Int),
      (∀ e ∈ fetchUttarakhandEarthquakes rows nowMs,
        ∃ t, e.timestamp = some t ∧ nowMs - 86400000 ≤ getTimeMs t) ∧
      (fetchUttarakhandEarthquakes rows nowMs).Pairwise
        (fun a b => quakeTimeKey b ≤ quakeTimeKey a) := by
  intro rows nowMs
  constructor
  · intro e he
    simp only [fetchUttarakhandEarthquakes] at he
    have h2 := (List.mem_filter.mp he).2
    unfold quakeRecent at h2
    cases ht : e.timestamp with
    | none => rw [ht] at h2; cases h2
    | some t => rw [ht] at h2; exact ⟨t, rfl, of_decide_eq_true h2⟩
  · show (List.filter _ (sortDescBy quakeTimeKey _)).Pairwise _
    exact (pairwise_sortDescBy _).sublist (List.filter_sublist _)

/-- C4 witness: a row 90 minutes old is retained with its parsed
timestamp. -/
theorem spec_C4_witness :
    ∃ t, ({ location := "Dist Chamoli Uttarakhand", magnitude := some (mkRat 9 2),
            timestamp := some ⟨2024, 3, 15, 10, 30⟩ } : SeismicEvent).timestamp = some t ∧
      nowC4 - 86400000 ≤ getTimeMs t :=
  (spec_C4 quakeRowsC4 nowC4).1
    { location := "Dist Chamoli Uttarakhand", magnitude := some (mkRat 9 2),
      timestamp := some ⟨2024, 3, 15, 10, 30⟩ } (by decide)

/-- C10 (amended): when the fifth cell parses to 0 or to no number the raw
magnitude falls back to the fourth cell; a raw magnitude of 0 or an
unparsable one is reported absent; and every retained event's magnitude is
either absent or the one-decimal rounding of a non-zero raw value — which
can itself be 0.0 (raw 0.04 rounds to 0), so a reported magnitude of exactly
0.0 can appear. -/
theorem spec_C10 :
    (∀ c3 c4 : String, (jsNumber c4 = none ∨ jsNumber c4 = some 0) →
      jsOrNum (jsNumber c4) (jsNumber c3) = jsNumber c3) ∧
    (∀ m : Option ℚ, (m = none ∨ m = some 0) → finishMagnitude m = none) ∧
    (∀ (rows : List (List String)) (nowMs : Int) (e : SeismicEvent),
      e ∈ fetchUttarakhandEarthquakes rows nowMs →
      e.magnitude = none ∨ ∃ q : ℚ, q ≠ 0 ∧ e.magnitude = some (jsToFixed 1 q)) := by
  refine ⟨?_, ?_, ?_⟩
  · intro c3 c4 h
    rcases h with h | h <;> simp [jsOrNum, h]
  · intro m h
    rcases h with h | h <;> simp [finishMagnitude, h]
  · intro rows nowMs e he
    simp only [fetchUttarakhandEarthquakes] at he
    have h2 := mem_sortDescBy (List.mem_filter.mp he).1
    obtain ⟨cells, _, hc⟩ := List.mem_filterMap.mp h2
    simp only [quakeRowToEvent] at hc
    split at hc
    · cases Option.some.inj hc
      exact finishMagnitude_cases _
    · cases hc

/-- C10 counterexample: a feed row with raw magnitude 0.04 is retained and
reported with magnitude exactly 0.0, refuting the claim that magnitude 0.0
can never appear. -/
theorem spec_C10_cex :
    fetchUttarakhandEarthquakes quakeRowsC10 nowC10 =
      [{ location := "Uttarakhand", magnitude := some 0,
         timestamp := some ⟨2024, 3, 15, 10, 30⟩ }] := by
  decide

/-- C10 witness: the amended characterization applied to the retained
0.04-magnitude event. -/
theorem spec_C10_witness :
    ({ location := "Uttarakhand", magnitude := some 0,
         timestamp := some ⟨2024, 3, 15, 10, 30⟩ } : SeismicEvent).magnitude = none ∨
    ∃ q : ℚ, q ≠ 0 ∧
      ({ location := "Uttarakhand", magnitude := some 0,
           timestamp := some ⟨2024, 3, 15, 10, 30⟩ } : SeismicEvent).magnitude =
        some (jsToFixed 1 q) :=
  spec_C10.2.2 quakeRowsC10 nowC10
    { location := "Uttarakhand", magnitude := some 0,
      timestamp := some ⟨2024, 3, 15, 10, 30⟩ } (by decide)

end Scheduler
